import Mathlib

/-!
Verification of the LonghornCoSchedule scheduler plugin
(repository MichaelTrip/kubevirt-scheduler).

This file gives a shallow embedding, in Lean 4, of the plugin's gate,
dependency resolver, hard filter and soft score
(pkg/plugins/longhorn_cosched: plugin.go, sharemanager.go, filter.go,
score.go), and proves properties of the embedded definitions.

The Kubernetes clients (typed clientset and dynamic client) are modelled
as an explicit environment `Env` of query functions.  A client `Get` call
returns either the object or a non-nil Go error; the error may be a
not-found error or any other (transport/API) failure, which the
environment distinguishes even though most of the plugin code does not.
-/

namespace LonghornCosched

/-- Outcome of one client `Get` call: the object, or a non-nil Go error.
`KErr.notFound` is the api-machinery not-found error; `KErr.other` is any
other failure (timeout, connection refused, forbidden, ...). -/
inductive KErr where
  | notFound
  | other (msg : String)
deriving DecidableEq, Repr

/-- Result of a client `Get`: found object or non-nil error. -/
inductive GetResult (α : Type) where
  | found (a : α)
  | err (e : KErr)

/-- The Go pair `(string, error)` returned by the lookup helpers: every
`return` in the source pairs a node string with a nil error, or an empty
string with a non-nil error. -/
inductive LookupResult where
  | ok (node : String)
  | err (e : KErr)
deriving DecidableEq, Repr

/-- `true` exactly on the nil-error results. -/
def LookupResult.isOk : LookupResult → Bool
  | .ok _ => true
  | .err _ => false

/-- Persistent-volume access modes (corev1.PersistentVolumeAccessMode). -/
inductive AccessMode where
  | readWriteOnce
  | readOnlyMany
  | readWriteMany
  | readWriteOncePod
deriving DecidableEq, Repr

/-- Pod lifecycle phase (corev1.PodPhase); only `running` matters here. -/
inductive PodPhase where
  | pending
  | running
  | succeeded
  | failed
  | unknown
deriving DecidableEq, Repr

/-- The fields of a PersistentVolumeClaim read by the plugin:
`Spec.AccessModes` and `Spec.VolumeName`. -/
structure PVC where
  accessModes : List AccessMode
  volumeName : String
deriving DecidableEq, Repr

/-- The fields of a fetched pod read by the plugin (tier-2 lookup):
`Status.Phase` and `Spec.NodeName`. -/
structure KPod where
  phase : PodPhase
  nodeName : String
deriving DecidableEq, Repr

/-- A dynamically-typed value inside an unstructured CRD object
(Go `interface\x7b\x7d`): a string, a nested string-keyed map, or
anything else. -/
inductive UVal where
  | str (s : String)
  | map (fields : List (String × UVal))
  | other

/-- An unstructured ShareManager CRD object: its top-level
`map[string]interface\x7b\x7d`. -/
structure SMObj where
  fields : List (String × UVal)

/-- Go type assertion `x.(map[string]interface\x7b\x7d)`, with the `ok`
flag folded into an `Option`; a missing key yields a nil interface whose
assertion also fails. -/
def UVal.asMap : UVal → Option (List (String × UVal))
  | .map fields => some fields
  | _ => none

/-- Go `v, _ := x.(string)`: the zero value `""` when the key is missing
or the value is not a string. -/
def strOrEmpty : Option UVal → String
  | some (.str s) => s
  | _ => ""

/-- A volume entry in a pod spec: `vol.PersistentVolumeClaim` is either
nil or carries a claim name. -/
structure Volume where
  pvcClaim : Option String

/-- The fields of the candidate pod read by the plugin: namespace, name,
annotations map (which may be nil — the source checks for nil explicitly),
labels and declared volumes. -/
structure Pod where
  ns : String
  name : String
  annots : Option (List (String × String))
  labels : List (String × String)
  volumes : List Volume

/-- The cluster state visible to the plugin: PVC lookups by
(namespace, name), pod lookups by (namespace, name), ShareManager CRD
lookups by (namespace, name), and whether the dynamic client is non-nil. -/
structure Env where
  pvcs : String → String → GetResult PVC
  pods : String → String → GetResult KPod
  shareManagers : String → String → GetResult SMObj
  dynClientPresent : Bool

/-- Source constant `AnnotationKey` (plugin.go). -/
def AnnKey : String := "kubevirt-scheduler/co-schedule"

/-- Source constant `AnnotationValue` (plugin.go). -/
def AnnValue : String := "true"

/-- Source constant `LonghornNamespace` (plugin.go). -/
def LonghornNamespace : String := "longhorn-system"

/-- Source constant `ShareManagerPrefix` (plugin.go): share-manager pod
names are this string followed by the PV name. -/
def ShareManagerPfx : String := "share-manager-"

/-- `framework.MaxNodeScore` from the scheduler framework: 100. -/
def MaxNodeScore : Int := 100

/-- Go map indexing with the string zero value for a missing key. -/
def mapGetD (m : List (String × String)) (k : String) : String :=
  (List.lookup k m).getD ""

/-- `isOptedIn` (plugin.go): nil annotations map is not opted in;
otherwise the annotation under the opt-in key must equal the exact
required value. -/
def isOptedIn (pod : Pod) : Bool :=
  match pod.annots with
  | none => false
  | some m => mapGetD m AnnKey == AnnValue

/-- Modelled from the spec: the constant `MigrationTargetLabel` and the
function `isMigrationTarget` are referenced by filter.go and score.go but
their defining file is not among the provided sources.  Per spec §4.1 and
the repository README, the marker is the label key
`kubevirt.io/migrationJobUID`, set by the orchestrator on live-migration
target pods. -/
def MigrationTargetLabel : String := "kubevirt.io/migrationJobUID"

/-- Modelled from the spec: a pod is a migration target iff it carries
the migration-target marker label (spec §4.1: "the pod carries a specific
exception marker (a label ...)"; README: "Migration target pods are
identified by the label kubevirt.io/migrationJobUID"). -/
def isMigrationTarget (pod : Pod) : Bool :=
  (List.lookup MigrationTargetLabel pod.labels).isSome

/-- `isRWX` (sharemanager.go): the PVC has ReadWriteMany among its access
modes. -/
def isRWX (pvc : PVC) : Bool :=
  pvc.accessModes.any (· == AccessMode.readWriteMany)

/-- `collectPVCNames` (sharemanager.go): the claim names of the pod's
volumes that reference a PersistentVolumeClaim, in declared order. -/
def collectPVCNames (pod : Pod) : List String :=
  pod.volumes.filterMap Volume.pvcClaim

/-- `getShareManagerNodeFromCRD` (sharemanager.go): read the ShareManager
CRD named after the PV in the Longhorn namespace; a failed `Get` returns
the error; otherwise `status.ownerID` is returned when non-empty and
`status.state` is `running` or `starting`, defensively treating a
missing/mistyped `status`, `ownerID` or `state` as absence. -/
def getShareManagerNodeFromCRD (env : Env) (pvName : String) : LookupResult :=
  match env.shareManagers LonghornNamespace pvName with
  | .err e => .err e
  | .found obj =>
    match (List.lookup "status" obj.fields).bind UVal.asMap with
    | none => .ok ""
    | some status =>
      let ownerID := strOrEmpty (List.lookup "ownerID" status)
      if ownerID = "" then .ok ""
      else
        let state := strOrEmpty (List.lookup "state" status)
        if state = "running" ∨ state = "starting" then .ok ownerID
        else .ok ""

/-- `getShareManagerNodeFromPod` (sharemanager.go): fetch the pod named
prefix+pvName in the Longhorn namespace; any `Get` error is swallowed
(`return "", nil`); the node name is returned only when the pod is
Running with a node assigned. -/
def getShareManagerNodeFromPod (env : Env) (pvName : String) : LookupResult :=
  match env.pods LonghornNamespace (ShareManagerPfx ++ pvName) with
  | .err _ => .ok ""
  | .found smPod =>
    if smPod.phase = PodPhase.running ∧ smPod.nodeName ≠ "" then .ok smPod.nodeName
    else .ok ""

/-- The `if dynClient != nil` block inside `getShareManagerNodeForPVC`
(sharemanager.go lines 84-92), verbatim: when the dynamic client is nil
the block is skipped; a CRD lookup error is logged and discarded
(fall-through), and only a non-empty node short-circuits. -/
def tier1Node (env : Env) (pvName : String) : Option String :=
  if env.dynClientPresent = false then none
  else
    match getShareManagerNodeFromCRD env pvName with
    | .err _ => none
    | .ok node => if node ≠ "" then some node else none

/-- `getShareManagerNodeForPVC` (sharemanager.go): any PVC `Get` error is
swallowed (`return "", nil // PVC not found — skip silently`); non-RWX and
unbound claims are skipped; then the CRD tier short-circuits on a usable
answer, else the pod tier is consulted. -/
def getShareManagerNodeForPVC (env : Env) (podNamespace pvcName : String) : LookupResult :=
  match env.pvcs podNamespace pvcName with
  | .err _ => .ok ""
  | .found pvc =>
    if isRWX pvc = false then .ok ""
    else if pvc.volumeName = "" then .ok ""
    else
      match tier1Node env pvc.volumeName with
      | some node => .ok node
      | none => getShareManagerNodeFromPod env pvc.volumeName

/-- The per-reference loop in `findShareManagerNode` (sharemanager.go):
the first reference yielding an error aborts; the first non-empty node is
returned; otherwise the loop falls through to `"", nil`. -/
def resolveFirst (env : Env) (podNamespace : String) : List String → LookupResult
  | [] => .ok ""
  | pvcName :: rest =>
    match getShareManagerNodeForPVC env podNamespace pvcName with
    | .err e => .err e
    | .ok node => if node ≠ "" then .ok node else resolveFirst env podNamespace rest

/-- `findShareManagerNode` (sharemanager.go): collect the pod's PVC
names; with none, return `("", nil)`; otherwise run the loop. -/
def findShareManagerNode (env : Env) (pod : Pod) : LookupResult :=
  let pvcNames := collectPVCNames pod
  if pvcNames.isEmpty then .ok ""
  else resolveFirst env pod.ns pvcNames

/-- Scheduler framework status codes used by the plugin. -/
inductive StatusCode where
  | error
  | unschedulable
deriving DecidableEq, Repr

/-- A non-nil `*framework.Status` (code plus message); `Filter` returns
`none` for the nil (success) status. -/
structure Status where
  code : StatusCode
  msg : String
deriving DecidableEq, Repr

/-- The `fmt.Sprintf` rejection message of filter.go line 66 (`%q` quotes
the node names). -/
def rejectMsg (nodeName smNode : String) : String :=
  "node \"" ++ nodeName ++ "\" rejected: Longhorn share-manager pod is running on node \"" ++ smNode ++ "\""

/-- Rendering of a lookup error inside the `%v` of the Filter/Score error
message. -/
def KErr.message : KErr → String
  | .notFound => "not found"
  | .other m => m

/-- `Filter` (filter.go).  The candidate is `nodeInfo.Node()`, which may
be nil (`none`).  Early returns: not opted in, then migration target,
then nil node, then resolver error, then empty resolution, then the
admit/reject comparison. -/
def Filter (env : Env) (pod : Pod) (nodeInfo : Option String) : Option Status :=
  if isOptedIn pod = false then none
  else if isMigrationTarget pod = true then none
  else
    match nodeInfo with
    | none => some ⟨StatusCode.error, "node not found"⟩
    | some nodeName =>
      match findShareManagerNode env pod with
      | .err e => some ⟨StatusCode.error, "error looking up share-manager pod: " ++ e.message⟩
      | .ok shareManagerNode =>
        if shareManagerNode = "" then none
        else if nodeName ≠ shareManagerNode then
          some ⟨StatusCode.unschedulable, rejectMsg nodeName shareManagerNode⟩
        else none

/-- `Score` (score.go): the Go pair `(int64, *framework.Status)`. -/
def Score (env : Env) (pod : Pod) (nodeName : String) : Int × Option Status :=
  if isOptedIn pod = false then (0, none)
  else if isMigrationTarget pod = true then (0, none)
  else
    match findShareManagerNode env pod with
    | .err e => (0, some ⟨StatusCode.error, "error looking up share-manager pod: " ++ e.message⟩)
    | .ok shareManagerNode =>
      if shareManagerNode = "" then (0, none)
      else if nodeName = shareManagerNode then (MaxNodeScore, none)
      else (0, none)

/-! ### Concrete cluster fixtures used by witnesses and counterexamples -/

/-- A bound RWX claim whose PV is `pv-1`. -/
def pvc1 : PVC := ⟨[AccessMode.readWriteMany], "pv-1"⟩

/-- The status map of a ShareManager in state `running` owned by `node-2`. -/
def stRunning : List (String × UVal) :=
  [("ownerID", UVal.str "node-2"), ("state", UVal.str "running")]

/-- A ShareManager CRD object in state `running` owned by `node-2`. -/
def smObjRunning : SMObj := ⟨[("status", UVal.map stRunning)]⟩

/-- The status map of a ShareManager in state `stopped` (owner set). -/
def stStopped : List (String × UVal) :=
  [("ownerID", UVal.str "node-2"), ("state", UVal.str "stopped")]

/-- A ShareManager CRD object in state `stopped`. -/
def smObjStopped : SMObj := ⟨[("status", UVal.map stStopped)]⟩

/-- Cluster where `default/pvc-a` is a bound RWX claim and the CRD for its
PV reports a running share-manager on `node-2`; no share-manager pod. -/
def envA : Env where
  pvcs := fun ns n => if ns = "default" ∧ n = "pvc-a" then .found pvc1 else .err .notFound
  pods := fun _ _ => .err .notFound
  shareManagers := fun ns n =>
    if ns = LonghornNamespace ∧ n = "pv-1" then .found smObjRunning else .err .notFound
  dynClientPresent := true

/-- Cluster where every PVC query fails with a transport error that is
not a not-found error. -/
def envBad : Env where
  pvcs := fun _ _ => .err (.other "connection refused")
  pods := fun _ _ => .err .notFound
  shareManagers := fun _ _ => .err .notFound
  dynClientPresent := true

/-- Cluster where `default/pvc-a` is a bound RWX claim but neither the
CRD nor the share-manager pod exists. -/
def envE : Env where
  pvcs := fun ns n => if ns = "default" ∧ n = "pvc-a" then .found pvc1 else .err .notFound
  pods := fun _ _ => .err .notFound
  shareManagers := fun _ _ => .err .notFound
  dynClientPresent := true

/-- Cluster where stopped CRD `pv-1` exists. -/
def envM : Env where
  pvcs := fun _ _ => .err .notFound
  pods := fun _ _ => .err .notFound
  shareManagers := fun ns n =>
    if ns = LonghornNamespace ∧ n = "pv-1" then .found smObjStopped else .err .notFound
  dynClientPresent := true

/-- A pod-query table on which every share-manager pod is Running on
`node-9` (used to show tier 2 is not consulted). -/
def podsB : String → String → GetResult KPod :=
  fun _ _ => .found ⟨PodPhase.running, "node-9"⟩

/-- An opted-in pod in `default` referencing claim `pvc-a`. -/
def podA : Pod where
  ns := "default"
  name := "vm"
  annots := some [(AnnKey, AnnValue)]
  labels := []
  volumes := [⟨some "pvc-a"⟩]

/-- An opted-in pod that is also a live-migration target. -/
def podMig : Pod where
  ns := "default"
  name := "vm-mig"
  annots := some [(AnnKey, AnnValue)]
  labels := [(MigrationTargetLabel, "uid-123")]
  volumes := [⟨some "pvc-a"⟩]

/-- A pod whose opt-in annotation carries the falsy-looking value
`"false"`. -/
def podFalseVal : Pod where
  ns := "default"
  name := "vm-f"
  annots := some [(AnnKey, "false")]
  labels := []
  volumes := []

/-! ### Helper lemmas -/

/-- `getShareManagerNodeFromPod` never returns a non-nil error: a failed
pod `Get` is swallowed into `("", nil)`. -/
theorem fromPod_isOk (env : Env) (pvName : String) :
    (getShareManagerNodeFromPod env pvName).isOk = true := by
  unfold getShareManagerNodeFromPod
  split
  · rfl
  · split <;> rfl

/-- `getShareManagerNodeForPVC` never returns a non-nil error: the PVC
`Get` error is swallowed, the CRD error is discarded by the fall-through,
and the pod tier swallows its own error. -/
theorem forPVC_isOk (env : Env) (pns n : String) :
    (getShareManagerNodeForPVC env pns n).isOk = true := by
  unfold getShareManagerNodeForPVC
  split
  · rfl
  · split
    · rfl
    · split
      · rfl
      · split
        · rfl
        · exact fromPod_isOk env _

/-- The per-reference loop never returns a non-nil error. -/
theorem resolveFirst_isOk (env : Env) (pns : String) (names : List String) :
    (resolveFirst env pns names).isOk = true := by
  induction names with
  | nil => rfl
  | cons a rest ih =>
    unfold resolveFirst
    cases h : getShareManagerNodeForPVC env pns a with
    | err e =>
      have hok := forPVC_isOk env pns a
      rw [h] at hok
      simp [LookupResult.isOk] at hok
    | ok node =>
      show (if node ≠ "" then LookupResult.ok node else resolveFirst env pns rest).isOk = true
      by_cases hn : node ≠ ""
      · rw [if_pos hn]; rfl
      · rw [if_neg hn]; exact ih

/-- `findShareManagerNode` never returns a non-nil error. -/
theorem findSM_isOk (env : Env) (pod : Pod) :
    (findShareManagerNode env pod).isOk = true := by
  show (if (collectPVCNames pod).isEmpty = true then LookupResult.ok ""
    else resolveFirst env pod.ns (collectPVCNames pod)).isOk = true
  by_cases h : (collectPVCNames pod).isEmpty = true
  · rw [if_pos h]; rfl
  · rw [if_neg h]; exact resolveFirst_isOk env pod.ns (collectPVCNames pod)

/-! ### Claims -/

/-- Claim C1, counterexample: in a cluster where the PVC query fails with
a transport error that is not a not-found error, resolution for an
opted-in pod referencing that claim does not abort with an error — it
returns the empty resolution, and Filter/Score fold the failure into an
Admit / neutral-score decision. -/
theorem C1_counterexample :
    envBad.pvcs "default" "pvc-a" = GetResult.err (KErr.other "connection refused") ∧
    findShareManagerNode envBad podA = LookupResult.ok "" ∧
    Filter envBad podA (some "node-1") = none ∧
    Score envBad podA "node-1" = (0, none) :=
  ⟨rfl, rfl, rfl, rfl⟩

/-- Claim C1 as amended: no transport/API failure while querying any tier
is ever propagated to the caller: a failing PVC or share-manager-pod
query is swallowed exactly like not-found, a failing ShareManager CRD
query falls through to the pod tier, and `findShareManagerNode` always
returns a nil error, so failures fold into an empty resolution. -/
theorem C1_never_errors (env : Env) (pod : Pod) :
    ∃ node, findShareManagerNode env pod = LookupResult.ok node := by
  cases h : findShareManagerNode env pod with
  | ok node => exact ⟨node, rfl⟩
  | err e =>
    have hok := findSM_isOk env pod
    rw [h] at hok
    simp [LookupResult.isOk] at hok

/-- Claim C2: a pod carrying both the exact opt-in annotation and the
migration-target label yields a nil Filter status and score 0 with nil
status for every candidate node, under every cluster state, without any
resolution being performed (the result is independent of the
environment). -/
theorem C2_migration_exception (pod : Pod)
    (h1 : isOptedIn pod = true) (h2 : isMigrationTarget pod = true) :
    ∀ (env : Env) (nodeInfo : Option String) (nodeName : String),
      Filter env pod nodeInfo = none ∧ Score env pod nodeName = (0, none) := by
  intro env ni c
  constructor
  · unfold Filter
    rw [h1, h2]
    simp
  · unfold Score
    rw [h1, h2]
    simp

/-- Witness for C2: an opted-in migration-target pod in a cluster where
resolution would yield node-2 is still admitted everywhere with score
0. -/
theorem C2_witness :
    Filter envA podMig (some "node-1") = none ∧ Score envA podMig "node-1" = (0, none) :=
  C2_migration_exception podMig rfl rfl envA (some "node-1") "node-1"

/-- Claim C7: for an opted-in, non-migration-target pod whose resolution
is empty, Filter returns the nil (success) status and Score returns 0
with nil status, for every candidate node. -/
theorem C7_absence_transparency (env : Env) (pod : Pod)
    (h1 : isOptedIn pod = true) (h2 : isMigrationTarget pod = false)
    (h3 : findShareManagerNode env pod = LookupResult.ok "") :
    ∀ c : String, Filter env pod (some c) = none ∧ Score env pod c = (0, none) := by
  intro c
  constructor
  · unfold Filter
    rw [h1, h2]
    simp [h3]
  · unfold Score
    rw [h1, h2]
    simp [h3]

/-- Witness for C7: opted-in pod, bound RWX claim, no ShareManager CRD
and no share-manager pod — admitted with score 0. -/
theorem C7_witness :
    Filter envE podA (some "node-1") = none ∧ Score envE podA "node-1" = (0, none) :=
  C7_absence_transparency envE podA rfl rfl rfl "node-1"

/-- Claim C8: the gate treats a pod as opted in iff its annotations map
is non-nil and maps the exact opt-in key to the exact required value; and
a pod not opted in makes Filter and Score unconditional no-ops. -/
theorem C8_optin_gate :
    (∀ pod : Pod, isOptedIn pod = true ↔
      ∃ m, pod.annots = some m ∧ List.lookup AnnKey m = some AnnValue) ∧
    (∀ (env : Env) (pod : Pod) (nodeInfo : Option String) (nodeName : String),
      isOptedIn pod = false →
      Filter env pod nodeInfo = none ∧ Score env pod nodeName = (0, none)) := by
  constructor
  · intro pod
    cases ha : pod.annots with
    | none => simp [isOptedIn, ha]
    | some m =>
      simp only [isOptedIn, ha]
      rw [beq_iff_eq]
      unfold mapGetD
      cases hl : List.lookup AnnKey m with
      | none =>
        simp only [Option.getD_none]
        constructor
        · intro h
          exact absurd h (by decide)
        · rintro ⟨m', hm', hlk⟩
          injection hm' with he
          subst he
          rw [hl] at hlk
          simp at hlk
      | some v =>
        simp only [Option.getD_some]
        constructor
        · intro h
          exact ⟨m, rfl, by rw [hl, h]⟩
        · rintro ⟨m', hm', hlk⟩
          injection hm' with he
          subst he
          rw [hl] at hlk
          injection hlk
  · intro env pod ni c h
    constructor
    · unfold Filter
      rw [h]
      simp
    · unfold Score
      rw [h]
      simp

/-- Witness for C8: a pod whose opt-in annotation has the value
`"false"` is not opted in, and Filter/Score are no-ops on it even in a
cluster where the companion resolves to a node. -/
theorem C8_witness :
    Filter envA podFalseVal (some "node-1") = none ∧
    Score envA podFalseVal "node-1" = (0, none) :=
  C8_optin_gate.2 envA podFalseVal (some "node-1") "node-1" rfl

/-- Claim C10: for an opted-in, non-migration-target pod, a nil node in
the supplied NodeInfo makes Filter return an Error status with message
"node not found", for every cluster state (so before any resolution);
and for a pod that is not opted in or is a migration target, Filter with
a nil node returns the nil (success) status. -/
theorem C10_nil_node :
    (∀ (env : Env) (pod : Pod), isOptedIn pod = true → isMigrationTarget pod = false →
      Filter env pod none = some ⟨StatusCode.error, "node not found"⟩) ∧
    (∀ (env : Env) (pod : Pod), isOptedIn pod = false ∨ isMigrationTarget pod = true →
      Filter env pod none = none) := by
  constructor
  · intro env pod h1 h2
    unfold Filter
    rw [h1, h2]
    simp
  · intro env pod h
    unfold Filter
    rcases h with h | h
    · rw [h]
      simp
    · rw [h]
      by_cases h1 : isOptedIn pod = false
      · rw [h1]
        simp
      · simp [h1]

/-- Witness for C10: the opted-in, non-migration pod with a nil node
yields the "node not found" Error status. -/
theorem C10_witness :
    Filter envA podA none = some ⟨StatusCode.error, "node not found"⟩ :=
  C10_nil_node.1 envA podA rfl rfl

/-- If the ShareManager CRD for `pvName` exists with a status map whose
ownerID is the non-empty `o` and whose state is running or starting, the
CRD read returns `o` with a nil error. -/
theorem crd_of_shape (env : Env) (pvName : String) (obj : SMObj)
    (st : List (String × UVal)) (o : String)
    (hsm : env.shareManagers LonghornNamespace pvName = GetResult.found obj)
    (hst : (List.lookup "status" obj.fields).bind UVal.asMap = some st)
    (howner : strOrEmpty (List.lookup "ownerID" st) = o) (ho : o ≠ "")
    (hstate : strOrEmpty (List.lookup "state" st) = "running" ∨
      strOrEmpty (List.lookup "state" st) = "starting") :
    getShareManagerNodeFromCRD env pvName = LookupResult.ok o := by
  unfold getShareManagerNodeFromCRD
  rw [hsm]
  simp only [hst]
  rw [howner]
  rw [if_neg ho]
  rcases hstate with h | h <;> rw [h] <;> simp

/-- A usable CRD answer makes the per-PVC lookup return it without
consulting the pod tier. -/
theorem forPVC_of_crd (env : Env) (pns pvcName o : String) (pvc : PVC)
    (hpvc : env.pvcs pns pvcName = GetResult.found pvc)
    (hrwx : isRWX pvc = true) (hbound : pvc.volumeName ≠ "")
    (hdyn : env.dynClientPresent = true)
    (hcrd : getShareManagerNodeFromCRD env pvc.volumeName = LookupResult.ok o)
    (ho : o ≠ "") :
    getShareManagerNodeForPVC env pns pvcName = LookupResult.ok o := by
  unfold getShareManagerNodeForPVC
  rw [hpvc]
  have ht : tier1Node env pvc.volumeName = some o := by
    unfold tier1Node
    rw [hdyn, hcrd]
    simp [ho]
  simp [hrwx, hbound, ht]

/-- Claim C3: when the claim is bound and the ShareManager CRD exists in
state running or starting with a non-empty owner node, the per-reference
lookup returns that owner node, and the result is unchanged under an
arbitrary replacement of the pod-query table — the share-manager pod tier
is never consulted. -/
theorem C3_tier1_precedence (env : Env) (pods2 : String → String → GetResult KPod)
    (pns pvcName o : String) (pvc : PVC) (obj : SMObj) (st : List (String × UVal))
    (hpvc : env.pvcs pns pvcName = GetResult.found pvc)
    (hrwx : isRWX pvc = true) (hbound : pvc.volumeName ≠ "")
    (hdyn : env.dynClientPresent = true)
    (hsm : env.shareManagers LonghornNamespace pvc.volumeName = GetResult.found obj)
    (hst : (List.lookup "status" obj.fields).bind UVal.asMap = some st)
    (howner : strOrEmpty (List.lookup "ownerID" st) = o) (ho : o ≠ "")
    (hstate : strOrEmpty (List.lookup "state" st) = "running" ∨
      strOrEmpty (List.lookup "state" st) = "starting") :
    getShareManagerNodeForPVC env pns pvcName = LookupResult.ok o ∧
    getShareManagerNodeForPVC { env with pods := pods2 } pns pvcName = LookupResult.ok o := by
  have hcrd : getShareManagerNodeFromCRD env pvc.volumeName = LookupResult.ok o :=
    crd_of_shape env pvc.volumeName obj st o hsm hst howner ho hstate
  have hcrd2 : getShareManagerNodeFromCRD { env with pods := pods2 } pvc.volumeName
      = LookupResult.ok o :=
    crd_of_shape { env with pods := pods2 } pvc.volumeName obj st o hsm hst howner ho hstate
  exact ⟨forPVC_of_crd env pns pvcName o pvc hpvc hrwx hbound hdyn hcrd ho,
    forPVC_of_crd { env with pods := pods2 } pns pvcName o pvc hpvc hrwx hbound hdyn hcrd2 ho⟩

/-- Witness for C3: with the running CRD owned by node-2, the lookup
returns node-2 even when every share-manager pod query would report a
Running pod on node-9. -/
theorem C3_witness :
    getShareManagerNodeForPVC envA "default" "pvc-a" = LookupResult.ok "node-2" ∧
    getShareManagerNodeForPVC { envA with pods := podsB } "default" "pvc-a"
      = LookupResult.ok "node-2" :=
  C3_tier1_precedence envA podsB "default" "pvc-a" "node-2" pvc1 smObjRunning stRunning
    rfl rfl (by decide) rfl rfl rfl rfl (by decide) (Or.inl rfl)

/-- A PVC-name list with a distinguished element is not empty. -/
theorem isEmpty_append_cons (pre : List String) (n : String) (post : List String) :
    (pre ++ n :: post).isEmpty = false := by
  cases pre <;> rfl

/-- The loop skips the references resolving to the empty string and
returns the first non-empty answer. -/
theorem resolveFirst_append (env : Env) (pns n node : String) (post : List String)
    (hn : getShareManagerNodeForPVC env pns n = LookupResult.ok node) (hnode : node ≠ "") :
    ∀ pre : List String,
      (∀ m ∈ pre, getShareManagerNodeForPVC env pns m = LookupResult.ok "") →
      resolveFirst env pns (pre ++ n :: post) = LookupResult.ok node := by
  intro pre
  induction pre with
  | nil =>
    intro _
    rw [List.nil_append]
    unfold resolveFirst
    rw [hn]
    simp [hnode]
  | cons a as ih =>
    intro hpre
    have ha : getShareManagerNodeForPVC env pns a = LookupResult.ok "" :=
      hpre a (by simp)
    rw [List.cons_append]
    unfold resolveFirst
    rw [ha]
    simp only [ne_eq, not_true_eq_false, ite_false]
    exact ih (fun m hm => hpre m (List.mem_cons_of_mem a hm))

/-- Claim C4: resolution enumerates the pod's volume references in
declared order and returns the node of the first reference yielding a
usable (non-empty) answer, regardless of what later references would
yield; and a reference whose claim lookup fails, is not RWX, or is not
bound is skipped with `("", nil)` — no error. -/
theorem C4_first_match :
    (∀ (env : Env) (pod : Pod) (pre : List String) (n : String) (post : List String)
        (node : String),
      collectPVCNames pod = pre ++ n :: post →
      (∀ m ∈ pre, getShareManagerNodeForPVC env pod.ns m = LookupResult.ok "") →
      getShareManagerNodeForPVC env pod.ns n = LookupResult.ok node →
      node ≠ "" →
      findShareManagerNode env pod = LookupResult.ok node) ∧
    (∀ (env : Env) (pns pvcName : String) (e : KErr),
      env.pvcs pns pvcName = GetResult.err e →
      getShareManagerNodeForPVC env pns pvcName = LookupResult.ok "") ∧
    (∀ (env : Env) (pns pvcName : String) (pvc : PVC),
      env.pvcs pns pvcName = GetResult.found pvc → isRWX pvc = false →
      getShareManagerNodeForPVC env pns pvcName = LookupResult.ok "") ∧
    (∀ (env : Env) (pns pvcName : String) (pvc : PVC),
      env.pvcs pns pvcName = GetResult.found pvc → pvc.volumeName = "" →
      getShareManagerNodeForPVC env pns pvcName = LookupResult.ok "") := by
  refine ⟨?_, ?_, ?_, ?_⟩
  · intro env pod pre n post node hnames hpre hn hnode
    show (if (collectPVCNames pod).isEmpty = true then LookupResult.ok ""
      else resolveFirst env pod.ns (collectPVCNames pod)) = LookupResult.ok node
    rw [hnames, isEmpty_append_cons]
    simp only [Bool.false_eq_true, if_false]
    exact resolveFirst_append env pod.ns n node post hn hnode pre hpre
  · intro env pns pvcName e h
    unfold getShareManagerNodeForPVC
    rw [h]
  · intro env pns pvcName pvc h hrwx
    unfold getShareManagerNodeForPVC
    rw [h]
    simp [hrwx]
  · intro env pns pvcName pvc h hvol
    unfold getShareManagerNodeForPVC
    rw [h]
    by_cases hrwx : isRWX pvc = false
    · simp [hrwx]
    · have hr : isRWX pvc = true := by
        cases hb : isRWX pvc
        · exact absurd hb hrwx
        · rfl
      simp [hr, hvol]

/-- A second bound RWX claim whose PV is `pv-2`. -/
def pvcB : PVC := ⟨[AccessMode.readWriteMany], "pv-2"⟩

/-- Status of a running ShareManager owned by `node-3`. -/
def stRunning3 : List (String × UVal) :=
  [("ownerID", UVal.str "node-3"), ("state", UVal.str "running")]

/-- A ShareManager CRD object in state `running` owned by `node-3`. -/
def smObjRunning3 : SMObj := ⟨[("status", UVal.map stRunning3)]⟩

/-- Cluster with two bound RWX claims whose ShareManagers run on node-2
(`pvc-a`) and node-3 (`pvc-b`). -/
def env4 : Env where
  pvcs := fun ns n =>
    if ns = "default" ∧ n = "pvc-a" then .found pvc1
    else if ns = "default" ∧ n = "pvc-b" then .found pvcB
    else .err .notFound
  pods := fun _ _ => .err .notFound
  shareManagers := fun ns n =>
    if ns = LonghornNamespace ∧ n = "pv-1" then .found smObjRunning
    else if ns = LonghornNamespace ∧ n = "pv-2" then .found smObjRunning3
    else .err .notFound
  dynClientPresent := true

/-- An opted-in pod declaring `pvc-a` before `pvc-b`. -/
def podB : Pod where
  ns := "default"
  name := "vm-2"
  annots := some [(AnnKey, AnnValue)]
  labels := []
  volumes := [⟨some "pvc-a"⟩, ⟨some "pvc-b"⟩]

/-- Witness for C4: the second reference alone would resolve to node-3,
but resolution returns node-2, the answer of the first reference. -/
theorem C4_witness :
    getShareManagerNodeForPVC env4 "default" "pvc-b" = LookupResult.ok "node-3" ∧
    findShareManagerNode env4 podB = LookupResult.ok "node-2" :=
  ⟨rfl, C4_first_match.1 env4 podB [] "pvc-a" ["pvc-b"] "node-2" rfl
    (by intro m hm; cases hm) rfl (by decide)⟩

/-- Claim C5: for an opted-in, non-migration-target pod whose resolution
is the non-empty node `smNode`, Filter returns the nil (success) status
exactly on the candidate named `smNode`, and every other candidate is
rejected Unschedulable with a message naming both the candidate and
`smNode`. -/
theorem C5_exact_node (env : Env) (pod : Pod) (smNode : String)
    (h1 : isOptedIn pod = true) (h2 : isMigrationTarget pod = false)
    (h3 : findShareManagerNode env pod = LookupResult.ok smNode) (h4 : smNode ≠ "") :
    ∀ c : String,
      (Filter env pod (some c) = none ↔ c = smNode) ∧
      (c ≠ smNode →
        Filter env pod (some c) = some ⟨StatusCode.unschedulable, rejectMsg c smNode⟩ ∧
        ∃ s1 s2 s3, rejectMsg c smNode = s1 ++ c ++ s2 ++ smNode ++ s3) := by
  intro c
  have hred : Filter env pod (some c) =
      (if c ≠ smNode then some ⟨StatusCode.unschedulable, rejectMsg c smNode⟩ else none) := by
    unfold Filter
    rw [h1, h2]
    simp [h3, h4]
  constructor
  · rw [hred]
    by_cases h5 : c = smNode
    · simp [h5]
    · simp [h5]
  · intro h5
    rw [hred, if_pos h5]
    exact ⟨rfl, "node \"",
      "\" rejected: Longhorn share-manager pod is running on node \"", "\"", rfl⟩

/-- Witness for C5: with resolution node-2, candidate node-1 is rejected
with the exact message and node-2 is admitted. -/
theorem C5_witness :
    (Filter envA podA (some "node-1") = none ↔ "node-1" = "node-2") ∧
    ("node-1" ≠ "node-2" →
      Filter envA podA (some "node-1") =
        some ⟨StatusCode.unschedulable, rejectMsg "node-1" "node-2"⟩ ∧
      ∃ s1 s2 s3, rejectMsg "node-1" "node-2" = s1 ++ "node-1" ++ s2 ++ "node-2" ++ s3) :=
  C5_exact_node envA podA "node-2" rfl rfl rfl (by decide) "node-1"

/-- Claim C6: Score only ever returns 0 or the ceiling MaxNodeScore, and
it returns the ceiling exactly when the pod is opted in, not a migration
target, and resolution yields a non-empty node equal to the candidate;
in every other case (including the never-taken error branch) the value
is 0. -/
theorem C6_score_step (env : Env) (pod : Pod) (c : String) :
    ((Score env pod c).1 = 0 ∨ (Score env pod c).1 = MaxNodeScore) ∧
    ((Score env pod c).1 = MaxNodeScore ↔
      (isOptedIn pod = true ∧ isMigrationTarget pod = false ∧
       findShareManagerNode env pod = LookupResult.ok c ∧ c ≠ "")) := by
  cases h1 : isOptedIn pod with
  | false =>
    unfold Score
    rw [h1]
    simp [MaxNodeScore]
  | true =>
    cases h2 : isMigrationTarget pod with
    | true =>
      unfold Score
      rw [h1, h2]
      simp [MaxNodeScore]
    | false =>
      cases h3 : findShareManagerNode env pod with
      | err e =>
        unfold Score
        rw [h1, h2, h3]
        simp [MaxNodeScore]
      | ok sm =>
        by_cases h4 : sm = ""
        · subst h4
          have hv : Score env pod c = (0, none) := by
            unfold Score
            rw [h1, h2, h3]
            simp
          rw [hv]
          refine ⟨Or.inl rfl, ?_, ?_⟩
          · intro h
            exact absurd h (by decide)
          · rintro ⟨-, -, hok, hne⟩
            injection hok with he
            exact absurd he.symm hne
        · by_cases h5 : c = sm
          · subst h5
            have hv : Score env pod c = (MaxNodeScore, none) := by
              unfold Score
              rw [h1, h2, h3]
              simp [h4]
            rw [hv]
            refine ⟨Or.inr rfl, ?_, ?_⟩
            · intro _
              exact ⟨rfl, rfl, rfl, h4⟩
            · intro _
              rfl
          · have hv : Score env pod c = (0, none) := by
              unfold Score
              rw [h1, h2, h3]
              simp [h4, h5]
            rw [hv]
            refine ⟨Or.inl rfl, ?_, ?_⟩
            · intro h
              exact absurd h (by decide)
            · rintro ⟨-, -, hok, -⟩
              injection hok with he
              exact absurd he.symm h5

/-- Claim C9: a present ShareManager CRD object whose status is missing
or not a map, whose ownerID is missing, mistyped or empty, or whose
state is missing, mistyped or not running/starting, yields the empty
result with a nil error from the tier-1 read (and, the embedding being
total, resolution cannot crash on it). -/
theorem C9_malformed (env : Env) (pvName : String) (obj : SMObj)
    (hfound : env.shareManagers LonghornNamespace pvName = GetResult.found obj)
    (hmal : (List.lookup "status" obj.fields).bind UVal.asMap = none
      ∨ ∃ st, (List.lookup "status" obj.fields).bind UVal.asMap = some st ∧
          (strOrEmpty (List.lookup "ownerID" st) = "" ∨
           (strOrEmpty (List.lookup "state" st) ≠ "running" ∧
            strOrEmpty (List.lookup "state" st) ≠ "starting"))) :
    getShareManagerNodeFromCRD env pvName = LookupResult.ok "" := by
  unfold getShareManagerNodeFromCRD
  rw [hfound]
  rcases hmal with h | ⟨st, hst, hrest⟩
  · simp [h]
  · simp only [hst]
    rcases hrest with ho | ⟨hs1, hs2⟩
    · simp [ho]
    · by_cases ho : strOrEmpty (List.lookup "ownerID" st) = ""
      · simp [ho]
      · rw [if_neg ho]
        simp [hs1, hs2]

/-- Witness for C9: a CRD present with owner node-2 but state `stopped`
contributes no node and no error. -/
theorem C9_witness :
    getShareManagerNodeFromCRD envM "pv-1" = LookupResult.ok "" :=
  C9_malformed envM "pv-1" smObjStopped rfl
    (Or.inr ⟨stStopped, rfl, Or.inr ⟨by decide, by decide⟩⟩)

end LonghornCosched
